import Mathlib

/-!
Verification of the HTS AI agent repository: a shallow embedding of the
Streamlit frontend (frontend/app.py) and of the demo harness (demo.py),
together with the query-orchestration pipeline the specification describes
(its module, agent_real_llm.py, is not among the repository's files, so it
is modelled from the specification's words). External effects — imports,
database calls, the hosted LLM call, the environment, the file system —
are passed in as explicit parameters; a Python exception is an
Except.error carrying the exception's message.
-/

namespace HTS

/-- Where an Answer's text came from: the three provenance tags of the
specification's data model. -/
inductive Provenance
  | database
  | generated
  | fallback
  deriving DecidableEq, BEq

/-- A tariff entry of the flat catalog (specification data model:
CandidateRecord). -/
structure CandidateRecord where
  code : String
  description : String
  dutyRate : String
  deriving DecidableEq, BEq

/-- A retrieved passage (specification data model: RetrievedPassage). The
retriever returns passages already ordered by descending relevance, so the
score is carried but never compared here. -/
structure RetrievedPassage where
  text : String
  offset : Nat
  score : Int
  deriving DecidableEq, BEq

/-- The final answer of one request (specification data model: Answer). -/
structure Answer where
  text : String
  provenance : Provenance
  deriving DecidableEq, BEq

/-- Modelled from the spec: one call to the Answer Generator (section 4.3;
the generator module is not among the repository's files) either succeeds
with text, fails transiently (network or timeout), or fails terminally
(authentication or quota). -/
inductive GenOutcome
  | success (s : String)
  | transient
  | terminal
  deriving DecidableEq, BEq

/-- Modelled from the spec: the generator invocation wrapper of section 4.3.
gen n is what the n-th call to the Answer Generator would do. The wrapper
issues the first call; after a transient failure it retries exactly once;
a terminal failure ends the request at once. It returns the generated text,
when any, together with the number of calls issued. -/
def genWrapper (gen : Nat → GenOutcome) : Option String × Nat :=
  match gen 0 with
  | .success s => (some s, 1)
  | .terminal => (none, 1)
  | .transient =>
    match gen 1 with
    | .success s => (some s, 2)
    | .transient => (none, 2)
    | .terminal => (none, 2)

/-- Modelled from the spec: the Answer text composed from the records the
Database Accessor returned (section 4.1 step 1). -/
def composeDb : List CandidateRecord → String
  | [] => ""
  | r :: rs => r.code ++ ": " ++ r.description ++ "\n" ++ composeDb rs

/-- Modelled from the spec: the local fallback of section 4.1 step 4 and
section 7 — the single highest-scoring passage verbatim, or the generic
message when no passage was retrieved; provenance is always fallback. -/
def fallbackAnswer : List RetrievedPassage → Answer
  | [] => { text := "unable to find information", provenance := .fallback }
  | p :: _ => { text := p.text, provenance := .fallback }

/-- Modelled from the spec: the informational path, section 4.1 steps 2 to 4.
The passages (ordered by descending relevance) and the query go to the
Answer Generator through the wrapper; generated text of at least the
configured minimum length is the Answer with provenance generated, anything
else degrades to the fallback. -/
def informational (minLen : Nat) (passages : List RetrievedPassage)
    (gen : Nat → GenOutcome) : Answer :=
  match (genWrapper gen).1 with
  | some s =>
    if minLen ≤ s.length then { text := s, provenance := .generated }
    else fallbackAnswer passages
  | none => fallbackAnswer passages

/-- Modelled from the spec: the Query Orchestrator's answer, section 4.1.
isStructured is the routing heuristic's verdict on the query (section 9
leaves the heuristic open), dbResults what the Database Accessor returned
for it, passages what the Document Retriever returned, gen the Answer
Generator's behaviour. A structured query with at least one matching record
is answered from the database; zero matching records fall through to the
informational path. -/
def orchestrate (minLen : Nat) (isStructured : Bool)
    (dbResults : List CandidateRecord) (passages : List RetrievedPassage)
    (gen : Nat → GenOutcome) : Answer :=
  if isStructured && !dbResults.isEmpty then
    { text := composeDb dbResults, provenance := .database }
  else informational minLen passages gen

/-- A bot as frontend/app.py sees it: query takes the prompt and returns a
response string or raises (Except.error carries the exception message). -/
abbrev Bot := String → Except String String

/-- frontend/app.py chat_interface, lines 163 to 167: the response shown for
a prompt; an exception from bot.query is caught and converted into the
error answer string. -/
def chatRespond (bot : Bot) (prompt : String) : String :=
  match bot prompt with
  | .ok r => r
  | .error e => "I encountered an error processing your question: " ++ e

/-- frontend/app.py sample_questions_interface, lines 219 to 222: the same
catch with the shorter conversion string. -/
def sampleRespond (bot : Bot) (q : String) : String :=
  match bot q with
  | .ok r => r
  | .error e => "Error: " ++ e

/-- A chat transcript role of st.session_state.messages. -/
inductive Role
  | user
  | assistant
  deriving DecidableEq, BEq

/-- One entry of st.session_state.messages. -/
structure Msg where
  role : Role
  content : String
  deriving DecidableEq, BEq

/-- frontend/app.py chat_interface, lines 154 to 171: one submitted prompt
appends the user message and then the assistant message (the bot's
response, exceptions converted) to the session transcript. -/
def processPrompt (bot : Bot) (msgs : List Msg) (prompt : String) :
    List Msg :=
  (msgs ++ [{ role := .user, content := prompt }])
    ++ [{ role := .assistant, content := chatRespond bot prompt }]

/-- How many messages of a transcript carry a given role. -/
def countRole (r : Role) (msgs : List Msg) : Nat :=
  (msgs.filter fun m => m.role == r).length

/-- frontend/app.py check_openai_setup, lines 83 to 86: env is os.getenv;
the check is that OPENAI_API_KEY is set. -/
def check_openai_setup (env : String → Option String) : Bool :=
  (env "OPENAI_API_KEY").isSome

/-- frontend/app.py initialize_bot, lines 61 to 81. The try body's external
actions are parameters: imp the imports, dbExists whether data/hts_data.db
already exists, setup the setup_database call (run only when it does not),
create the create_tariff_bot call. On success the pair is (bot, none); an
exception anywhere in the body yields (none, its message). -/
def initialize_bot (imp : Except String Unit) (dbExists : Bool)
    (setup : Except String Unit) (create : Except String Bot) :
    Option Bot × Option String :=
  match imp with
  | .error e => (none, some e)
  | .ok _ =>
    match (if dbExists then Except.ok () else setup) with
    | .error e => (none, some e)
    | .ok _ =>
      match create with
      | .error e => (none, some e)
      | .ok b => (some b, none)

/-- What main (frontend/app.py lines 88 to 128) makes of a session: halt
with the displayed error when initialize_bot reported one (st.error then
st.stop), or keep running with the bot and the key-check result. -/
inductive AppOutcome
  | halted (errMsg : String)
  | running (hasOpenai : Bool) (bot : Bot)

/-- frontend/app.py main, lines 88 to 128: check the key, initialize the
bot, halt on an initialization error, otherwise run with the bot. The
(none, none) shape never arises from initialize_bot. -/
def mainApp (env : String → Option String) (imp : Except String Unit)
    (dbExists : Bool) (setup : Except String Unit)
    (create : Except String Bot) : AppOutcome :=
  match initialize_bot imp dbExists setup create with
  | (_, some e) => .halted e
  | (some b, none) => .running (check_openai_setup env) b
  | (none, none) => .halted ""

/-- The fallback-mode warning (the api-key box of main and the warning of
chat_interface) is shown exactly when the key check failed and the app is
running. -/
def fallbackWarningShown : AppOutcome → Bool
  | .halted _ => false
  | .running hasOpenai _ => !hasOpenai

/-- A query submitted to a session: answered through chat_interface when
the app is running, unanswerable when it halted at startup. -/
def serveQuery : AppOutcome → String → Option String
  | .halted _, _ => none
  | .running _ bot, prompt => some (chatRespond bot prompt)

/-- Whether an external call's outcome is a normal return. -/
def exOk {α : Type} : Except String α → Bool
  | .ok _ => true
  | .error _ => false

/-- Whether a boolean-returning external call returned normally with true. -/
def exOkTrue : Except String Bool → Bool
  | .ok b => b
  | .error _ => false

/-- demo.py test_database, lines 66 to 97. The try body's external actions
in order: the import, setup_database, the HTSDatabase and HTSDataProcessor
constructions, the search for asses, close_connection. An exception
anywhere is caught and gives false; setup_database returning false gives
false; the searched list, even empty, does not affect the verdict. -/
def test_database (imp : Except String Unit) (setup : Except String Bool)
    (construct : Except String Unit)
    (search : Except String (List CandidateRecord))
    (close : Except String Unit) : Bool :=
  match imp with
  | .error _ => false
  | .ok _ =>
    match setup with
    | .error _ => false
    | .ok success =>
      if !success then false
      else
        match construct with
        | .error _ => false
        | .ok _ =>
          match search with
          | .error _ => false
          | .ok _ =>
            match close with
            | .error _ => false
            | .ok _ => true

/-- demo.py test_rag_system, lines 99 to 122: the import, create_rag_system,
and the query (its answer string, the dictionary lookup's default already
applied); the 50-character threshold only picks the log message. -/
def test_rag_system (imp : Except String Unit) (create : Except String Unit)
    (query : Except String String) : Bool :=
  match imp with
  | .error _ => false
  | .ok _ =>
    match create with
    | .error _ => false
    | .ok _ =>
      match query with
      | .error _ => false
      | .ok _ => true

/-- demo.py test_tariff_calculator, lines 124 to 156: the import, the
calculator construction, and calculate_tariff (its result's truthiness);
a falsy result only picks the log message. -/
def test_tariff_calculator (imp : Except String Unit)
    (construct : Except String Unit) (calcR : Except String Bool) : Bool :=
  match imp with
  | .error _ => false
  | .ok _ =>
    match construct with
    | .error _ => false
    | .ok _ =>
      match calcR with
      | .error _ => false
      | .ok _ => true

/-- The three queries test_agent tries, demo.py lines 168 to 172. -/
def demoTestQueries : List String :=
  ["What is the United States-Israel Free Trade Agreement?",
   "What's the HTS code for donkeys?",
   "How is classification determined for manufacturing items?"]

/-- demo.py test_agent, lines 174 to 180: query each test question in turn,
stopping at the first response longer than 50 characters; an exception from
bot.query aborts the loop with that exception. -/
def agentQueryLoop (botQ : String → Except String String) :
    List String → Except String Unit
  | [] => .ok ()
  | q :: rest =>
    match botQ q with
    | .error e => .error e
    | .ok r => if r.length > 50 then .ok () else agentQueryLoop botQ rest

/-- demo.py test_agent, lines 158 to 188: the import, create_tariff_bot,
then the query loop; any exception is caught and gives false. -/
def test_agent (imp : Except String Unit) (create : Except String Unit)
    (botQ : String → Except String String) : Bool :=
  match imp with
  | .error _ => false
  | .ok _ =>
    match create with
    | .error _ => false
    | .ok _ =>
      match agentQueryLoop botQ demoTestQueries with
      | .error _ => false
      | .ok _ => true

/-- demo.py check_dependencies, lines 18 to 45: the missing dependencies,
collected in import order without stopping at the first failure (pandasOk
is whether import pandas succeeds, and so on). -/
def missingDeps (pandasOk sqliteOk streamlitOk : Bool) : List String :=
  (if pandasOk then [] else ["pandas"])
    ++ (if sqliteOk then [] else ["sqlite3"])
    ++ (if streamlitOk then [] else ["streamlit"])

/-- demo.py check_dependencies returns true exactly when nothing is
missing. -/
def check_dependencies (pandasOk sqliteOk streamlitOk : Bool) : Bool :=
  (missingDeps pandasOk sqliteOk streamlitOk).isEmpty

/-- The two data files demo.py check_data_files requires, lines 49 to 52. -/
def requiredDataFiles : List String :=
  ["data/htsdata.csv", "data/GeneralNotes.pdf"]

/-- demo.py check_data_files, lines 47 to 64: fileExists is os.path.exists;
the files whose check failed. -/
def missingFiles (fileExists : String → Bool) : List String :=
  requiredDataFiles.filter fun f => !fileExists f

/-- demo.py check_data_files returns true exactly when no required file is
missing. -/
def check_data_files (fileExists : String → Bool) : Bool :=
  (missingFiles fileExists).isEmpty

/-- The four component tests in their fixed order, demo.py lines 206 to
211. -/
def demoTestNames : List String :=
  ["Database", "RAG System", "Tariff Calculator", "TariffBot Agent"]

/-- demo.py lines 214 to 219: a test call's recorded result; a crash of the
call itself is recorded as a failure. -/
def runTestResult : Except String Bool → Bool
  | .ok b => b
  | .error _ => false

/-- demo.py run_comprehensive_demo, lines 190 to 247: the dependency check,
the data-file check, then the four component tests in their fixed order;
returns whether at least one passed together with the names of the tests
that were run. -/
def run_comprehensive_demo (pandasOk sqliteOk streamlitOk : Bool)
    (fileExists : String → Bool)
    (t1 t2 t3 t4 : Except String Bool) : Bool × List String :=
  if !check_dependencies pandasOk sqliteOk streamlitOk then (false, [])
  else if !check_data_files fileExists then (false, [])
  else
    ((runTestResult t1 || runTestResult t2 || runTestResult t3
        || runTestResult t4),
      demoTestNames)

/-- A string of positive length is not the empty string. -/
lemma ne_empty_of_pos_length {s : String} (h : 0 < s.length) : s ≠ "" := by
  intro he
  rw [he] at h
  exact absurd h (by decide)

/-- The database answer composed from at least one record is never empty. -/
lemma composeDb_cons_ne_empty (r : CandidateRecord)
    (rs : List CandidateRecord) : composeDb (r :: rs) ≠ "" := by
  apply ne_empty_of_pos_length
  have h2 : 0 < (": ").length := by decide
  simp only [composeDb, String.length_append]
  omega

/-- The fallback answer always carries the fallback provenance. -/
lemma fallbackAnswer_provenance (ps : List RetrievedPassage) :
    (fallbackAnswer ps).provenance = .fallback := by
  cases ps <;> rfl

/-- The fallback answer's text is non-empty whenever every retrieved
passage's text is. -/
lemma fallbackAnswer_text_ne (ps : List RetrievedPassage)
    (hp : ∀ p ∈ ps, p.text ≠ "") : (fallbackAnswer ps).text ≠ "" := by
  cases ps with
  | nil => decide
  | cons p rest => exact hp p (List.mem_cons_self p rest)

/-- The informational path's text is non-empty for a positive usefulness
threshold and non-empty passage texts. -/
lemma informational_text_ne (minLen : Nat) (hmin : 0 < minLen)
    (ps : List RetrievedPassage) (hp : ∀ p ∈ ps, p.text ≠ "")
    (gen : Nat → GenOutcome) : (informational minLen ps gen).text ≠ "" := by
  unfold informational
  cases hg : (genWrapper gen).1 with
  | none => exact fallbackAnswer_text_ne ps hp
  | some s =>
    by_cases hl : minLen ≤ s.length
    · simp only [hl, if_true]
      exact ne_empty_of_pos_length (lt_of_lt_of_le hmin hl)
    · simp only [hl, if_false]
      exact fallbackAnswer_text_ne ps hp

/-- The orchestrator's text is non-empty for a positive usefulness
threshold and non-empty passage texts. -/
lemma orchestrate_text_ne (minLen : Nat) (hmin : 0 < minLen)
    (isStructured : Bool) (db : List CandidateRecord)
    (ps : List RetrievedPassage) (hp : ∀ p ∈ ps, p.text ≠ "")
    (gen : Nat → GenOutcome) :
    (orchestrate minLen isStructured db ps gen).text ≠ "" := by
  unfold orchestrate
  cases hcond : (isStructured && !db.isEmpty) with
  | false => simp only [if_false, Bool.false_eq_true]
             exact informational_text_ne minLen hmin ps hp gen
  | true =>
    simp only [if_true]
    cases db with
    | nil => simp at hcond
    | cons r rs => exact composeDb_cons_ne_empty r rs

/-- A provenance value is one of the three tags. -/
lemma provenance_cases (pr : Provenance) :
    pr = .database ∨ pr = .generated ∨ pr = .fallback := by
  cases pr <;> simp

/-- C1: for every query submitted through the public query interface the
system returns a non-empty textual answer with a valid provenance value and
never throws: the orchestrator's answer has non-empty text and one of the
three provenance tags, a normal bot result is passed through unchanged, and
an exception raised by the bot's query call is caught at the interface
boundary (chat and sample-questions alike) and converted into a non-empty
answer string. -/
theorem c1_interface_nonempty_never_throws
    (minLen : Nat) (hmin : 0 < minLen) (isStructured : Bool)
    (dbResults : List CandidateRecord) (passages : List RetrievedPassage)
    (hp : ∀ p ∈ passages, p.text ≠ "")
    (gen : Nat → GenOutcome) (prompt e : String) :
    (orchestrate minLen isStructured dbResults passages gen).text ≠ "" ∧
    ((orchestrate minLen isStructured dbResults passages gen).provenance
        = .database ∨
      (orchestrate minLen isStructured dbResults passages gen).provenance
        = .generated ∨
      (orchestrate minLen isStructured dbResults passages gen).provenance
        = .fallback) ∧
    chatRespond
      (fun _ => .ok (orchestrate minLen isStructured dbResults passages gen).text)
      prompt = (orchestrate minLen isStructured dbResults passages gen).text ∧
    chatRespond (fun _ => .error e) prompt
      = "I encountered an error processing your question: " ++ e ∧
    chatRespond (fun _ => .error e) prompt ≠ "" ∧
    sampleRespond (fun _ => .error e) prompt = "Error: " ++ e := by
  refine ⟨orchestrate_text_ne minLen hmin isStructured dbResults passages hp gen,
    provenance_cases _, rfl, rfl, ?_, rfl⟩
  apply ne_empty_of_pos_length
  have h1 : 0 < ("I encountered an error processing your question: ").length := by
    decide
  simp only [chatRespond, String.length_append]
  omega

/-- C1 witness: the theorem applied at threshold 20, an unstructured query,
one catalog record, no retrieved passage and a terminally failing
generator. -/
theorem c1_witness :
    chatRespond (fun _ => .error "boom") "a query"
      = "I encountered an error processing your question: " ++ "boom" :=
  (c1_interface_nonempty_never_throws 20 (by decide) false
    [{ code := "0101.30.00.00", description := "donkeys", dutyRate := "free" }]
    [] (by simp) (fun _ => .terminal) "a query" "boom").2.2.2.1

/-- C2: every submitted prompt appends exactly one user message and exactly
one assistant message to the session transcript, and the answer's
provenance reflects the path that produced the content: a generated label
means the wrapper really returned that text at the usefulness threshold, a
database label means the structured path really had records, and the
fallback answer is always labelled fallback. -/
theorem c2_one_answer_honest_provenance
    (bot : Bot) (msgs : List Msg) (prompt : String) (minLen : Nat)
    (isStructured : Bool) (dbResults : List CandidateRecord)
    (passages : List RetrievedPassage) (gen : Nat → GenOutcome) :
    countRole .user (processPrompt bot msgs prompt)
      = countRole .user msgs + 1 ∧
    countRole .assistant (processPrompt bot msgs prompt)
      = countRole .assistant msgs + 1 ∧
    ((orchestrate minLen isStructured dbResults passages gen).provenance
        = .generated →
      ∃ s, (genWrapper gen).1 = some s ∧ minLen ≤ s.length ∧
        (orchestrate minLen isStructured dbResults passages gen).text = s) ∧
    ((orchestrate minLen isStructured dbResults passages gen).provenance
        = .database →
      isStructured = true ∧ dbResults ≠ []) ∧
    (∀ ps, (fallbackAnswer ps).provenance = .fallback) := by
  refine ⟨?_, ?_, ?_, ?_, fallbackAnswer_provenance⟩
  · simp only [processPrompt, countRole, List.filter_append,
      List.length_append]
    rfl
  · simp only [processPrompt, countRole, List.filter_append,
      List.length_append]
    rfl
  · unfold orchestrate
    cases hcond : (isStructured && !dbResults.isEmpty) with
    | true => simp
    | false =>
      simp only [Bool.false_eq_true, if_false]
      unfold informational
      cases hg : (genWrapper gen).1 with
      | none =>
        rw [fallbackAnswer_provenance]
        simp
      | some s =>
        by_cases hl : minLen ≤ s.length
        · simp only [hl, if_true]
          exact fun _ => ⟨s, rfl, hl, rfl⟩
        · simp only [hl, if_false]
          rw [fallbackAnswer_provenance]
          simp
  · unfold orchestrate
    cases hcond : (isStructured && !dbResults.isEmpty) with
    | true =>
      intro _
      rcases Bool.and_eq_true_iff.mp hcond with ⟨h1, h2⟩
      refine ⟨h1, ?_⟩
      cases dbResults with
      | nil => simp at h2
      | cons r rs => simp
    | false =>
      simp only [Bool.false_eq_true, if_false]
      intro hpr
      exfalso
      unfold informational at hpr
      cases hg : (genWrapper gen).1 with
      | none =>
        rw [hg] at hpr
        rw [fallbackAnswer_provenance] at hpr
        simp at hpr
      | some s =>
        rw [hg] at hpr
        by_cases hl : minLen ≤ s.length
        · simp only [hl, if_true] at hpr
          simp at hpr
        · simp only [hl, if_false] at hpr
          rw [fallbackAnswer_provenance] at hpr
          simp at hpr

/-- C3: for a query routed to the Database Accessor for which zero records
match, the orchestrator falls through to the informational path, and its
answer is never labelled as a database result. -/
theorem c3_zero_records_fall_through
    (minLen : Nat) (isStructured : Bool) (passages : List RetrievedPassage)
    (gen : Nat → GenOutcome) :
    orchestrate minLen isStructured [] passages gen
      = informational minLen passages gen ∧
    (orchestrate minLen isStructured [] passages gen).provenance
      ≠ .database := by
  have h : orchestrate minLen isStructured [] passages gen
      = informational minLen passages gen := by
    simp [orchestrate]
  refine ⟨h, ?_⟩
  rw [h]
  unfold informational
  cases hg : (genWrapper gen).1 with
  | none =>
    rw [fallbackAnswer_provenance]
    simp
  | some s =>
    by_cases hl : minLen ≤ s.length
    · simp only [hl, if_true]
      simp
    · simp only [hl, if_false]
      rw [fallbackAnswer_provenance]
      simp

/-- C4: the generator invocation wrapper issues at most 2 calls: 1 call
when the first call succeeds or fails terminally (authentication or quota),
2 calls — exactly one retry — when the first call fails transiently; a
first-call success is returned as is. -/
theorem c4_generator_wrapper_call_count (gen : Nat → GenOutcome) :
    (genWrapper gen).2 ≤ 2 ∧
    (genWrapper gen).2
      = (match gen 0 with
         | .transient => 2
         | _ => 1) ∧
    (∀ s, gen 0 = .success s → (genWrapper gen).1 = some s) := by
  refine ⟨?_, ?_, ?_⟩
  · cases h0 : gen 0
    · simp [genWrapper, h0]
    · simp only [genWrapper, h0]
      cases h1 : gen 1 <;> simp
    · simp [genWrapper, h0]
  · cases h0 : gen 0
    · simp [genWrapper, h0]
    · simp only [genWrapper, h0]
      cases h1 : gen 1 <;> simp
    · simp [genWrapper, h0]
  · intro s hs
    simp [genWrapper, hs]

/-- C5: the key check is exactly the presence of OPENAI_API_KEY, and its
result does not gate the app: whenever initialization succeeds the app runs
with the bot, shows the fallback-mode warning exactly when the key is
absent, and serves every submitted query through chat_interface. -/
theorem c5_absent_key_still_serves
    (env : String → Option String) (imp : Except String Unit)
    (dbExists : Bool) (setup : Except String Unit)
    (create : Except String Bot) (b : Bot)
    (hinit : initialize_bot imp dbExists setup create = (some b, none))
    (q : String) :
    check_openai_setup env = (env "OPENAI_API_KEY").isSome ∧
    mainApp env imp dbExists setup create
      = .running (check_openai_setup env) b ∧
    fallbackWarningShown (mainApp env imp dbExists setup create)
      = !check_openai_setup env ∧
    serveQuery (mainApp env imp dbExists setup create) q
      = some (chatRespond b q) := by
  have hm : mainApp env imp dbExists setup create
      = .running (check_openai_setup env) b := by
    unfold mainApp
    rw [hinit]
  exact ⟨rfl, hm, by rw [hm]; rfl, by rw [hm]; rfl⟩

/-- A concrete bot for the closed instances below. -/
def demoBot : Bot := fun _ => .ok "a concrete answer"

/-- C5 witness: with no environment variable set at all and a successful
initialization, the app still serves a query. -/
theorem c5_witness :
    serveQuery (mainApp (fun _ => none) (.ok ()) true (.ok ()) (.ok demoBot))
        "a question"
      = some (chatRespond demoBot "a question") :=
  (c5_absent_key_still_serves (fun _ => none) (.ok ()) true (.ok ())
    (.ok demoBot) demoBot rfl "a question").2.2.2

/-- C6: each of the four demo component tests returns a boolean in every
case and returns false exactly when one of its external actions raised (or,
for the database test, setup reported failure; for the agent test, when the
query loop raised): in particular every exception is caught and none
propagates. -/
theorem c6_demo_tests_catch_all
    (imp : Except String Unit) (setup : Except String Bool)
    (construct : Except String Unit)
    (search : Except String (List CandidateRecord))
    (close : Except String Unit) (create : Except String Unit)
    (query : Except String String) (construct2 : Except String Unit)
    (calcR : Except String Bool) (create2 : Except String Unit)
    (botQ : String → Except String String) :
    test_database imp setup construct search close
      = (exOk imp && exOkTrue setup && exOk construct && exOk search
          && exOk close) ∧
    test_rag_system imp create query
      = (exOk imp && exOk create && exOk query) ∧
    test_tariff_calculator imp construct2 calcR
      = (exOk imp && exOk construct2 && exOk calcR) ∧
    test_agent imp create2 botQ
      = (exOk imp && exOk create2
          && exOk (agentQueryLoop botQ demoTestQueries)) := by
  refine ⟨?_, ?_, ?_, ?_⟩
  · cases imp
    · rfl
    · cases setup
      · rfl
      · rename_i b
        cases b
        · cases construct <;> [rfl; skip]
          cases search <;> [rfl; skip]
          cases close <;> rfl
        · cases construct <;> [rfl; skip]
          cases search <;> [rfl; skip]
          cases close <;> rfl
  · cases imp
    · rfl
    · cases create <;> [rfl; skip]
      cases query <;> rfl
  · cases imp
    · rfl
    · cases construct2 <;> [rfl; skip]
      cases calcR <;> rfl
  · cases imp
    · rfl
    · cases create2 <;> [rfl; skip]
      cases hl : agentQueryLoop botQ demoTestQueries <;>
        simp [test_agent, hl, exOk]

/-- C7: an empty or below-threshold result is a normal outcome: the
database test returns true when the search returns an empty list (and for
any result list; setup failure gives false), and the RAG test returns true
for an answer of at most 50 characters. -/
theorem c7_empty_results_normal (s : String) (_hs : s.length ≤ 50)
    (rs : List CandidateRecord) :
    test_database (.ok ()) (.ok true) (.ok ()) (.ok []) (.ok ()) = true ∧
    test_database (.ok ()) (.ok true) (.ok ()) (.ok rs) (.ok ()) = true ∧
    test_database (.ok ()) (.ok false) (.ok ()) (.ok []) (.ok ()) = false ∧
    test_rag_system (.ok ()) (.ok ()) (.ok s) = true :=
  ⟨rfl, rfl, rfl, rfl⟩

/-- C7 witness: the theorem at a 5-character answer and a concrete record
list. -/
theorem c7_witness :
    test_database (.ok ()) (.ok true) (.ok ()) (.ok []) (.ok ()) = true ∧
    test_database (.ok ()) (.ok true) (.ok ())
        (.ok [{ code := "0101", description := "asses", dutyRate := "free" }])
        (.ok ()) = true ∧
    test_database (.ok ()) (.ok false) (.ok ()) (.ok []) (.ok ()) = false ∧
    test_rag_system (.ok ()) (.ok ()) (.ok "short") = true :=
  c7_empty_results_normal "short" (by decide)
    [{ code := "0101", description := "asses", dutyRate := "free" }]

/-- C8: initialize_bot never raises — it returns (bot, none) on success or
(none, message) when construction failed — and in the failure case main
halts with that displayed message, so the session answers no query. -/
theorem c8_init_never_raises_halts_on_error
    (imp : Except String Unit) (dbExists : Bool) (setup : Except String Unit)
    (create : Except String Bot) (env : String → Option String)
    (q : String) :
    (∃ b, initialize_bot imp dbExists setup create = (some b, none)) ∨
    (∃ e, initialize_bot imp dbExists setup create = (none, some e) ∧
      mainApp env imp dbExists setup create = .halted e ∧
      serveQuery (mainApp env imp dbExists setup create) q = none) := by
  cases imp with
  | error e =>
    right
    refine ⟨e, rfl, ?_, ?_⟩ <;> rfl
  | ok _ =>
    cases hdb : (if dbExists then Except.ok () else setup :
        Except String Unit) with
    | error e =>
      right
      refine ⟨e, ?_, ?_, ?_⟩ <;> simp [initialize_bot, mainApp, serveQuery, hdb]
    | ok _ =>
      cases create with
      | error e =>
        right
        refine ⟨e, ?_, ?_, ?_⟩ <;>
          simp [initialize_bot, mainApp, serveQuery, hdb]
      | ok b =>
        left
        exact ⟨b, by simp [initialize_bot, hdb]⟩

/-- C9: the comprehensive demo returns true exactly when the dependency
check and the data-file check pass and at least one of the four component
tests passes; the executed-test list is empty when either check fails and
is the fixed four-test order whenever both pass, whatever the tests
return. -/
theorem c9_demo_gating_and_order
    (pandasOk sqliteOk streamlitOk : Bool) (fileExists : String → Bool)
    (t1 t2 t3 t4 : Except String Bool) :
    (run_comprehensive_demo pandasOk sqliteOk streamlitOk fileExists
        t1 t2 t3 t4).1
      = (check_dependencies pandasOk sqliteOk streamlitOk
          && check_data_files fileExists
          && (runTestResult t1 || runTestResult t2 || runTestResult t3
              || runTestResult t4)) ∧
    (run_comprehensive_demo pandasOk sqliteOk streamlitOk fileExists
        t1 t2 t3 t4).2
      = (if check_dependencies pandasOk sqliteOk streamlitOk
            && check_data_files fileExists
         then demoTestNames else []) := by
  cases hd : check_dependencies pandasOk sqliteOk streamlitOk with
  | false => simp [run_comprehensive_demo, hd]
  | true =>
    cases hf : check_data_files fileExists with
    | false => simp [run_comprehensive_demo, hd, hf]
    | true => simp [run_comprehensive_demo, hd, hf]

/-- C10: the dependency check passes exactly when all three imports do, and
a missing dependency is recorded whether or not an earlier one was already
missing; the data-file check passes exactly when both required files
exist. -/
theorem c10_dependency_and_file_checks
    (pandasOk sqliteOk streamlitOk : Bool) (fileExists : String → Bool) :
    check_dependencies pandasOk sqliteOk streamlitOk
      = (pandasOk && sqliteOk && streamlitOk) ∧
    ("pandas" ∈ missingDeps pandasOk sqliteOk streamlitOk
      ↔ pandasOk = false) ∧
    ("sqlite3" ∈ missingDeps pandasOk sqliteOk streamlitOk
      ↔ sqliteOk = false) ∧
    ("streamlit" ∈ missingDeps pandasOk sqliteOk streamlitOk
      ↔ streamlitOk = false) ∧
    check_data_files fileExists
      = (fileExists "data/htsdata.csv" && fileExists "data/GeneralNotes.pdf")
    := by
  refine ⟨?_, ?_, ?_, ?_, ?_⟩
  · cases pandasOk <;> cases sqliteOk <;> cases streamlitOk <;> decide
  · cases pandasOk <;> cases sqliteOk <;> cases streamlitOk <;> decide
  · cases pandasOk <;> cases sqliteOk <;> cases streamlitOk <;> decide
  · cases pandasOk <;> cases sqliteOk <;> cases streamlitOk <;> decide
  · cases h1 : fileExists "data/htsdata.csv" <;>
      cases h2 : fileExists "data/GeneralNotes.pdf" <;>
      simp [check_data_files, missingFiles, requiredDataFiles, h1, h2]

end HTS
